import Mathlib

/-!
Shallow embedding of the weaver dependency-injection core
(`src/container.di.ts`, second revision in the file, together with the
`@Ref` decorator metadata store of `decorators/ref.decorator.ts`).

Modelling conventions:
* JS values relevant to the container are the inductive `Value`; machine
  identity of classes and symbols is a `Nat` tag carried by `Ident`.
* The static shape of a class (its `DEPS` array, whether its constructor
  throws, its prototype methods and its `@Ref` metadata) lives in an
  environment `Env`, fixed for a run, mirroring the fact that class
  definitions are immutable at resolution time.
* The mutable `services` map of a `DIContainer` is an association list with
  JS `Map` semantics (`set` replaces in place, insertion order kept).
* Throwing is modelled by `Except DIError`; `Logger.error` calls are
  modelled by an accumulated list of `LogEntry`.
* The recursion of `resolve` (and of redirected calls, which re-enter the
  container) is made total with a fuel parameter; running out of fuel is the
  distinct result `DIError.fuelExhausted`, which no real execution path
  produces for sufficient fuel.
* Member bodies (`methods`) are opaque total functions from constructor
  arguments and call arguments to a result value; a `@Ref` thunk's evaluated
  outcome is `Option Ident` (`none` models a thunk that yields a falsy,
  unusable result).  Promise wrapping of redirected calls is elided: the
  single-threaded semantics of the source makes a redirected call a
  sequential computation.
-/

/-- Registry keys: a constructible class identifier or a symbol token,
each identified by machine identity (a `Nat` tag). -/
inductive Ident where
  | classId (c : Nat)
  | symbolId (n : Nat)
deriving DecidableEq, Repr

/-- Runtime values of the embedded fragment of JS. -/
inductive Value where
  | vNull
  | vUndefined
  | vBool (b : Bool)
  | vNum (n : Int)
  | vStr (s : String)
  | vSymbol (n : Nat)
  | vClass (c : Nat)
  | vInstance (c : Nat) (ctorArgs : List Value)
  | vProxy (c : Nat) (ctorArgs : List Value)

/-- `@Ref` metadata, as stored by the decorator: the decorated method name,
the evaluated outcome of the lazy class thunk (`none` when the thunk yields
nothing usable), and the optional target method name. -/
structure RefMeta where
  methodName : String
  classRef : Option Ident
  targetMethodName : Option String
deriving DecidableEq, Repr

/-- A method body: constructor arguments and call arguments to result.
Bodies are opaque and total; no claim inspects a body. -/
abbrev MethodImpl : Type := List Value → List Value → Value

/-- Static description of a class: its `DEPS` static property (`none` when
the property is absent, `some ds` when it is an array `ds`), whether its
constructor throws (and with what message), its prototype method table, and
its `@Ref` metadata list in attachment order. -/
structure ClassDef where
  deps : Option (List Ident)
  ctorThrows : Bool
  ctorErr : String
  methods : List (String × MethodImpl)
  refs : List RefMeta

/-- The immutable class environment of a run. -/
structure Env where
  classes : Nat → Option ClassDef

/-- Error taxonomy.  The source throws bare `Error`s distinguished only by
message; the constructors record which throw site produced the error:
`configuration` for `'Class has no static property DEPS'`, `resolution` for
`'Unable to resolve service: ...'`, `redirection` for the two `@Ref` proxy
messages, `typeError` for JS `TypeError`s (calling a non-constructor is
folded into `resolution` by the `try`/`catch` of `resolve`, so `typeError`
only surfaces from member access). -/
inductive DIError where
  | configuration (msg : String)
  | resolution (msg : String)
  | redirection (msg : String)
  | typeError (msg : String)
  | fuelExhausted
deriving DecidableEq, Repr

/-- A `Logger.error` call.  `resolveError` mirrors the catch in `resolve`
(message `Missed: ...` with context `serviceStringify`, `service`, `params`,
`err`); `refError` mirrors the catch in the proxy (message
`Failed to resolve @Ref method: ...` with context `error`). -/
inductive LogEntry where
  | resolveError (message : String) (serviceStringify : Option String)
      (service : Value) (params : List Value) (cause : String)
  | refError (message : String) (cause : String)

/-- The services map of a container: association list with JS `Map`
semantics. -/
abbrev Services : Type := List (Ident × Value)

/-- `Map.prototype.has`. -/
def mapHas (s : Services) (k : Ident) : Bool :=
  s.any (fun e => e.1 == k)

/-- Lookup of the stored value (`none` when the key is absent). -/
def mapGet (s : Services) (k : Ident) : Option Value :=
  (s.find? (fun e => e.1 == k)).map (fun e => e.2)

/-- `Map.prototype.get`: JS returns `undefined` for an absent key. -/
def mapGetD (s : Services) (k : Ident) : Value :=
  (mapGet s k).getD .vUndefined

/-- `Map.prototype.set`: replace in place when the key is present, else
append, preserving insertion order. -/
def mapSet (s : Services) (k : Ident) (v : Value) : Services :=
  if mapHas s k then s.map (fun e => if e.1 == k then (k, v) else e)
  else s ++ [(k, v)]

/-- JS truthiness on `Value` (falsy: `null`, `undefined`, `false`, `0`,
`''`; symbols, functions/classes and objects are truthy). -/
def isFalsy : Value → Bool
  | .vNull => true
  | .vUndefined => true
  | .vBool b => !b
  | .vNum n => n == 0
  | .vStr s => s == ""
  | _ => false

/-- Nullish test (`null` or `undefined`): property access on these throws a
`TypeError`. -/
def isNullish : Value → Bool
  | .vNull => true
  | .vUndefined => true
  | _ => false

/-- `typeof constructor === 'symbol'`. -/
def isSymbolId : Ident → Bool
  | .symbolId _ => true
  | .classId _ => false

/-- The value an identifier denotes when stored as its own descriptor
(`this.services.set(constructor, constructor)`). -/
def identValue : Ident → Value
  | .classId c => .vClass c
  | .symbolId n => .vSymbol n

/-- `Array.isArray((constructor as unknown as Class)?.DEPS)`: symbols never
carry a `DEPS` property; a class carries one exactly when its definition
declares it. -/
def hasDepsArray (env : Env) (id : Ident) : Bool :=
  match id with
  | .classId c =>
    match env.classes c with
    | some cd => cd.deps.isSome
    | none => false
  | .symbolId _ => false

/-- `DIContainer.registerMock`: validates the `DEPS` array unconditionally
(no symbol special case), then stores `(id -> val)`. -/
def registerMock (env : Env) (s : Services) (id : Ident) (val : Value) :
    Except DIError Services :=
  if hasDepsArray env id then .ok (mapSet s id val)
  else .error (.configuration "Class has no static property DEPS")

/-- `DIContainer.register`: symbols are stored with their value
unconditionally; classes must carry a `DEPS` array and are stored as their
own descriptor. -/
def register (env : Env) (s : Services) (id : Ident) (val : Value) :
    Except DIError Services :=
  match id with
  | .symbolId _ => .ok (mapSet s id val)
  | .classId _ =>
    if hasDepsArray env id then .ok (mapSet s id (identValue id))
    else .error (.configuration "Class has no static property DEPS")

/-- `DIContainer.clear`. -/
def clear (_s : Services) : Services := []

/-- `(service as Class)?.DEPS` of a stored descriptor: only a class value
with a declared `DEPS` array yields a dependency list. -/
def getDeps (env : Env) (service : Value) : Option (List Ident) :=
  match service with
  | .vClass c => (env.classes c).bind (fun cd => cd.deps)
  | _ => none

/-- `JSON.stringify` restricted to the values that can be stored as
descriptors.  `none` models the JS result `undefined` (functions/classes and
symbols); object serialisation is abbreviated to `\x7b\x7d` — no claim
inspects the JSON text of an object. -/
def jsonStringify : Value → Option String
  | .vNull => some "null"
  | .vUndefined => none
  | .vBool b => some (cond b "true" "false")
  | .vNum n => some (toString n)
  | .vStr s => some ("\"" ++ s ++ "\"")
  | .vSymbol _ => none
  | .vClass _ => none
  | .vInstance _ _ => some "\x7b\x7d"
  | .vProxy _ _ => some "\x7b\x7d"

/-- Template interpolation of a `JSON.stringify` result: JS renders the
`undefined` result as the text `undefined`. -/
def stringifyOr (v : Value) : String :=
  (jsonStringify v).getD "undefined"

/-- `typeof service === 'string' ? service : JSON.stringify(service)`,
interpolated into the `Missed:` log message. -/
def errText : Value → String
  | .vStr s => s
  | v => stringifyOr v

/-- The `@Ref` metadata of a class's prototype (`getRefMetadata`, empty when
none was attached). -/
def refsOf (env : Env) (c : Nat) : List RefMeta :=
  match env.classes c with
  | some cd => cd.refs
  | none => []

/-- The `Ref` decorator body: push the new metadata onto the stored list.
Registration is total — no binding is ever rejected. -/
def attachRef (store : List RefMeta) (m : RefMeta) : List RefMeta :=
  store ++ [m]

/-- Lookup in `new Map(refMetadata.map(ref => [ref.methodName, ref]))`: a
later list entry for the same name overwrites an earlier one, so the lookup
returns the last match. -/
def refLookup (refs : List RefMeta) (name : String) : Option RefMeta :=
  refs.foldl (fun acc r => if r.methodName == name then some r else acc) none

/-- `new (service as Constructor<T>)(...params)`, including the wrap step of
`createProxyWithRefs` (which cannot throw): a class with `@Ref` metadata
yields a proxy, one without yields a bare instance; constructing a
non-class value throws a `TypeError`, and a throwing constructor reports
its own message.  The error string is the `err` context of the `Missed:`
log. -/
def construct (env : Env) (service : Value) (params : List Value) :
    Except String Value :=
  match service with
  | .vClass c =>
    match env.classes c with
    | some cd =>
      if cd.ctorThrows then .error cd.ctorErr
      else if cd.refs.isEmpty then .ok (.vInstance c params)
      else .ok (.vProxy c params)
    | none => .error "TypeError: service is not a constructor"
  | _ => .error "TypeError: service is not a constructor"

/-- Outcome of a container entry point: the returned value or thrown error,
the services map after the call, and the `Logger.error` calls made. -/
structure ROut where
  result : Except DIError Value
  services : Services
  logs : List LogEntry

/-- Outcome of resolving a dependency list. -/
structure POut where
  result : Except DIError (List Value)
  services : Services
  logs : List LogEntry

/-- `DEPS.map(param => this.resolve(param, useMocked, false))` with the
state threading of the shared services map: dependencies are resolved left
to right, a throw aborts the remaining entries. -/
def resolveParamsAux (step : Services → Ident → ROut) :
    Services → List Ident → POut
  | s, [] => ⟨.ok [], s, []⟩
  | s, d :: rest =>
    let r := step s d
    match r.result with
    | .error e => ⟨.error e, r.services, r.logs⟩
    | .ok v =>
      let p := resolveParamsAux step r.services rest
      match p.result with
      | .error e => ⟨.error e, p.services, r.logs ++ p.logs⟩
      | .ok vs => ⟨.ok (v :: vs), p.services, r.logs ++ p.logs⟩

/-- `DIContainer.resolve` (second revision of `container.di.ts`), made
total by fuel.  Branches in source order: registered symbols are returned
verbatim; an absent identifier yields `null` at root and is auto-registered
as its own descriptor otherwise; a falsy stored descriptor yields `null`;
a nested resolution with `useMocked` returns the stored descriptor; else
the dependency list is resolved recursively and the descriptor constructed,
a failure being logged and rethrown as the resolution error. -/
def resolve (env : Env) : Nat → Services → Ident → Bool → Bool → ROut
  | 0, s, _, _, _ => ⟨.error .fuelExhausted, s, []⟩
  | fuel + 1, s, id, useMocked, isFirst =>
    if mapHas s id && isSymbolId id then
      ⟨.ok (mapGetD s id), s, []⟩
    else if !mapHas s id && isFirst then
      ⟨.ok .vNull, s, []⟩
    else
      let s1 := if mapHas s id then s else mapSet s id (identValue id)
      let service := mapGetD s1 id
      if isFalsy service then
        ⟨.ok .vNull, s1, []⟩
      else if !isFirst && useMocked then
        ⟨.ok service, s1, []⟩
      else
        let ds := (getDeps env service).getD []
        let p := resolveParamsAux
          (fun s' d => resolve env fuel s' d useMocked false) s1 ds
        match p.result with
        | .error e => ⟨.error e, p.services, p.logs⟩
        | .ok params =>
          match construct env service params with
          | .ok v => ⟨.ok v, p.services, p.logs⟩
          | .error cause =>
            ⟨.error (.resolution
                ("Unable to resolve service: " ++ stringifyOr service)),
             p.services,
             p.logs ++ [.resolveError ("Missed: " ++ errText service)
                (jsonStringify service) service params cause]⟩

/-- The message of a thrown error, as captured by the `error` context of the
proxy's `Logger.error` call. -/
def errMessage : DIError → String
  | .configuration m => m
  | .resolution m => m
  | .redirection m => m
  | .typeError m => m
  | .fuelExhausted => "fuel exhausted"

/-- `refConfig.targetMethodName || prop`: JS `||` falls through on the
falsy empty string as well as on `undefined`. -/
def jsOr (o : Option String) (dflt : String) : String :=
  match o with
  | some t => if t == "" then dflt else t
  | none => dflt

/-- Member lookup on a bare instance: `instance[name]` is a function
exactly when the class's prototype method table has the name. -/
def classHasMethod (env : Env) (c : Nat) (name : String) : Bool :=
  match env.classes c with
  | some cd => (cd.methods.lookup name).isSome
  | none => false

/-- `typeof refInstance[name] === 'function'`.  On a proxy the `get` trap
makes every bound source method name a function; anything else falls
through to the underlying instance.  Primitives and classes expose no
modelled members. -/
def hasCallableMember (env : Env) (v : Value) (name : String) : Bool :=
  match v with
  | .vInstance c _ => classHasMethod env c name
  | .vProxy c _ =>
    (refLookup (refsOf env c) name).isSome || classHasMethod env c name
  | _ => false

/-- Invoking a member on a bare instance: the prototype method applied to
the constructor arguments and the call arguments; a missing member is the
JS `TypeError` of calling `undefined`. -/
def callOwn (env : Env) (c : Nat) (cargs : List Value) (name : String)
    (args : List Value) : Except DIError Value :=
  match env.classes c with
  | some cd =>
    match cd.methods.lookup name with
    | some impl => .ok (impl cargs args)
    | none => .error (.typeError ("instance member " ++ name
        ++ " is not a function"))
  | none => .error (.typeError ("instance member " ++ name
      ++ " is not a function"))

/-- The `refError` log entry the proxy's `catch` emits before rethrowing. -/
def refFailLog (prop : String) (e : DIError) : LogEntry :=
  .refError ("Failed to resolve @Ref method: " ++ prop) (errMessage e)

/-- Calling `v[name](args)`: on a proxied instance a bound source method
name runs the redirected call of `createProxyWithRefs` (evaluate the thunk
outcome, resolve the target with `(useMocked := false, isFirst := false)`,
pick the effective method name, require a callable member, invoke it); any
other name, and any bare instance, dispatches to the instance's own member.
Synchronous throws inside the proxy's `try` are logged and rethrown; a
failure of the invoked target member itself is a promise rejection returned
through `return`, which the `catch` does not see, so it propagates without
an extra log entry. -/
def callMember (env : Env) : Nat → Services → Value → String → List Value → ROut
  | 0, s, _, _, _ => ⟨.error .fuelExhausted, s, []⟩
  | fuel + 1, s, v, name, args =>
    match v with
    | .vProxy c cargs =>
      match refLookup (refsOf env c) name with
      | some meta =>
        match meta.classRef with
        | none =>
          let e : DIError := .redirection
            ("No class returned from @Ref for method " ++ name)
          ⟨.error e, s, [refFailLog name e]⟩
        | some tid =>
          let r := resolve env fuel s tid false false
          match r.result with
          | .error e => ⟨.error e, r.services, r.logs ++ [refFailLog name e]⟩
          | .ok refInstance =>
            let m := jsOr meta.targetMethodName name
            if isNullish refInstance then
              let e : DIError := .typeError
                ("Cannot read properties of " ++ errText refInstance)
              ⟨.error e, r.services, r.logs ++ [refFailLog name e]⟩
            else if !hasCallableMember env refInstance m then
              let e : DIError := .redirection
                ("Method " ++ m ++ " not found in referenced class")
              ⟨.error e, r.services, r.logs ++ [refFailLog name e]⟩
            else
              let c2 := callMember env fuel r.services refInstance m args
              ⟨c2.result, c2.services, r.logs ++ c2.logs⟩
      | none => ⟨callOwn env c cargs name args, s, []⟩
    | .vInstance c cargs => ⟨callOwn env c cargs name args, s, []⟩
    | _ => ⟨.error (.typeError ("member " ++ name ++ " is not a function")),
        s, []⟩

/-- The redirected-call branch of the proxy `get` trap, as a standalone
function of the selected binding: `callMember` on a proxy dispatches every
call of a bound source method name to `redirectSpec` of the binding the
flattened name-to-binding map selects. -/
def redirectSpec (env : Env) (fuel : Nat) (s : Services) (meta : RefMeta)
    (prop : String) (args : List Value) : ROut :=
  match meta.classRef with
  | none =>
    let e : DIError := .redirection
      ("No class returned from @Ref for method " ++ prop)
    ⟨.error e, s, [refFailLog prop e]⟩
  | some tid =>
    let r := resolve env fuel s tid false false
    match r.result with
    | .error e => ⟨.error e, r.services, r.logs ++ [refFailLog prop e]⟩
    | .ok refInstance =>
      let m := jsOr meta.targetMethodName prop
      if isNullish refInstance then
        let e : DIError := .typeError
          ("Cannot read properties of " ++ errText refInstance)
        ⟨.error e, r.services, r.logs ++ [refFailLog prop e]⟩
      else if !hasCallableMember env refInstance m then
        let e : DIError := .redirection
          ("Method " ++ m ++ " not found in referenced class")
        ⟨.error e, r.services, r.logs ++ [refFailLog prop e]⟩
      else
        let c2 := callMember env fuel r.services refInstance m args
        ⟨c2.result, c2.services, r.logs ++ c2.logs⟩

/-- The frame relation of `resolve` on the services map: every entry
present before is unmodified, and every new entry is a self-descriptor
auto-registration. -/
def Extends (s s' : Services) : Prop :=
  (∀ k, mapHas s k = true → mapGet s' k = mapGet s k) ∧
  (∀ k, mapHas s k = false → mapHas s' k = true →
    mapGet s' k = some (identValue k))

/-- Classification of the redirection errors among all thrown errors. -/
def isRedirErr : DIError → Bool
  | .redirection _ => true
  | _ => false

/-- Shorthand for the services map after the absent-key auto-registration
step of `resolve`. -/
def postReg (s : Services) (id : Ident) : Services :=
  if mapHas s id then s else mapSet s id (identValue id)

/-- Shorthand for the dependency-resolution outcome inside one unfolding of
`resolve`. -/
def paramsOf (env : Env) (n : Nat) (s : Services) (id : Ident) (u : Bool) :
    POut :=
  resolveParamsAux (fun s' d => resolve env n s' d u false) (postReg s id)
    ((getDeps env (mapGetD (postReg s id) id)).getD [])

/-- Concrete classes for closed witnesses and counterexamples. -/
def cdPlain : ClassDef :=
  ⟨some [], false, "ctor failed",
   [("getValue", fun _ _ => .vStr "real")], []⟩

/-- A class whose dependency list is `[cdPlain]`. -/
def cdNeedsPlain : ClassDef :=
  ⟨some [.classId 0], false, "ctor failed", [], []⟩

/-- A class whose constructor throws. -/
def cdThrowing : ClassDef :=
  ⟨some [], true, "ctor failed", [], []⟩

/-- A class depending on an (unregistered) symbol token. -/
def cdSymNeeder : ClassDef :=
  ⟨some [.symbolId 7], false, "ctor failed", [], []⟩

/-- A class with one redirection binding `foo -> (class 5).bar`. -/
def cdOwner : ClassDef :=
  ⟨some [], false, "ctor failed",
   [("own", fun _ _ => .vStr "own")],
   [⟨"foo", some (.classId 5), some "bar"⟩]⟩

/-- The redirection target, carrying a callable `bar`. -/
def cdTarget : ClassDef :=
  ⟨some [], false, "ctor failed",
   [("bar", fun _ args => .vInstance 99 args)], []⟩

/-- A class whose binding `foo` targets the nested proxy class 7. -/
def cdOuterNested : ClassDef :=
  ⟨some [], false, "ctor failed", [],
   [⟨"foo", some (.classId 7), none⟩]⟩

/-- A class whose own binding `foo` has a failing thunk. -/
def cdInnerFailing : ClassDef :=
  ⟨some [], false, "ctor failed", [], [⟨"foo", none, none⟩]⟩

/-- A class with the three-element dependency list of C6. -/
def cdThreeDeps : ClassDef :=
  ⟨some [.classId 0, .classId 5, .symbolId 7], false, "ctor failed", [], []⟩

/-- A class with two bindings for the same source name `foo`: the earlier
redirects to class 5, the later has a failing thunk. -/
def cdDupBindings : ClassDef :=
  ⟨some [], false, "ctor failed", [],
   [⟨"foo", some (.classId 5), some "bar"⟩, ⟨"foo", none, none⟩]⟩

/-- The class environment of all closed witnesses and counterexamples. -/
def WEnv : Env :=
  ⟨fun c =>
    if c = 0 then some cdPlain
    else if c = 1 then some cdNeedsPlain
    else if c = 2 then some cdThrowing
    else if c = 3 then some cdSymNeeder
    else if c = 4 then some cdOwner
    else if c = 5 then some cdTarget
    else if c = 6 then some cdOuterNested
    else if c = 7 then some cdInnerFailing
    else if c = 8 then some cdThreeDeps
    else if c = 9 then some cdDupBindings
    else none⟩

section MapLemmas

theorem mapHas_nil (k : Ident) : mapHas [] k = false := rfl

theorem mapHas_cons (a : Ident × Value) (t : Services) (k : Ident) :
    mapHas (a :: t) k = ((a.1 == k) || mapHas t k) := rfl

theorem mapGet_nil (k : Ident) : mapGet [] k = none := rfl

theorem mapGet_cons (a : Ident × Value) (t : Services) (k : Ident) :
    mapGet (a :: t) k = if a.1 == k then some a.2 else mapGet t k := by
  cases h : (a.1 == k) with
  | true => simp [mapGet, List.find?, h]
  | false => simp [mapGet, List.find?, h]

theorem mapHas_eq_isSome (s : Services) (k : Ident) :
    mapHas s k = (mapGet s k).isSome := by
  induction s with
  | nil => rfl
  | cons a t ih =>
    rw [mapHas_cons, mapGet_cons]
    cases h : (a.1 == k) with
    | true => simp
    | false => simp [ih]

theorem mapSet_absent {s : Services} {k : Ident} (v : Value)
    (h : mapHas s k = false) : mapSet s k v = s ++ [(k, v)] := by
  simp [mapSet, h]

theorem mapGet_set_self {s : Services} {k : Ident} (v : Value)
    (h : mapHas s k = false) : mapGet (mapSet s k v) k = some v := by
  rw [mapSet_absent v h]
  induction s with
  | nil => simp [mapGet_cons]
  | cons a t ih =>
    rw [mapHas_cons] at h
    rcases Bool.or_eq_false_iff.mp h with ⟨h1, h2⟩
    rw [List.cons_append, mapGet_cons, ih h2, if_neg (by simp [h1])]

theorem mapGet_set_other {s : Services} {k k' : Ident} (v : Value)
    (h : mapHas s k = false) (hne : k' ≠ k) :
    mapGet (mapSet s k v) k' = mapGet s k' := by
  rw [mapSet_absent v h]
  induction s with
  | nil => simp [mapGet_cons, mapGet_nil, Ne.symm hne]
  | cons a t ih =>
    rw [mapHas_cons] at h
    rcases Bool.or_eq_false_iff.mp h with ⟨_, h2⟩
    rw [List.cons_append, mapGet_cons, mapGet_cons, ih h2]

theorem mapHas_set_self {s : Services} {k : Ident} (v : Value)
    (h : mapHas s k = false) : mapHas (mapSet s k v) k = true := by
  rw [mapHas_eq_isSome, mapGet_set_self v h]; rfl

theorem mapHas_set_other {s : Services} {k k' : Ident} (v : Value)
    (h : mapHas s k = false) (hne : k' ≠ k) :
    mapHas (mapSet s k v) k' = mapHas s k' := by
  rw [mapHas_eq_isSome, mapGet_set_other v h hne, mapHas_eq_isSome]

end MapLemmas

section ExtendsLemmas

theorem Extends.rfl (s : Services) : Extends s s :=
  ⟨fun _ _ => Eq.refl _, fun k h1 h2 => absurd h2 (by simp [h1])⟩

theorem Extends.trans {s1 s2 s3 : Services}
    (h12 : Extends s1 s2) (h23 : Extends s2 s3) : Extends s1 s3 := by
  obtain ⟨a12, b12⟩ := h12
  obtain ⟨a23, b23⟩ := h23
  constructor
  · intro k hk
    have h2 : mapHas s2 k = true := by
      rw [mapHas_eq_isSome, a12 k hk, ← mapHas_eq_isSome]; exact hk
    rw [a23 k h2, a12 k hk]
  · intro k hk hk3
    cases h2 : mapHas s2 k with
    | true => rw [a23 k h2]; exact b12 k hk h2
    | false => exact b23 k h2 hk3

theorem Extends.set_auto {s : Services} {id : Ident}
    (h : mapHas s id = false) : Extends s (mapSet s id (identValue id)) := by
  constructor
  · intro k hk
    have hne : k ≠ id := fun he => by rw [he] at hk; rw [hk] at h; cases h
    exact mapGet_set_other _ h hne
  · intro k hk hk2
    by_cases he : k = id
    · subst he; exact mapGet_set_self _ h
    · rw [mapHas_set_other _ h he] at hk2
      rw [hk2] at hk; cases hk

end ExtendsLemmas

section ResolveLemmas

theorem resolve_services_cases (env : Env) (n : Nat) (s : Services)
    (id : Ident) (u f : Bool) :
    (resolve env (n + 1) s id u f).services = s ∨
    (resolve env (n + 1) s id u f).services = postReg s id ∨
    (resolve env (n + 1) s id u f).services = (paramsOf env n s id u).services := by
  by_cases h : mapHas s id = true
  · simp only [resolve, paramsOf, postReg, h, if_pos]
    repeat' split
    all_goals simp
  · simp only [resolve, paramsOf, postReg, h, if_neg, Bool.false_and,
      eq_false_of_ne_true h]
    repeat' split
    all_goals simp

theorem resolve_error_source (env : Env) (n : Nat) (s : Services)
    (id : Ident) (u f : Bool) (e : DIError)
    (h : (resolve env (n + 1) s id u f).result = .error e) :
    (paramsOf env n s id u).result = .error e ∨ ∃ msg, e = .resolution msg := by
  by_cases hh : mapHas s id = true
  · simp only [resolve, paramsOf, postReg, hh, if_pos] at h ⊢
    revert h
    repeat' split
    all_goals intro h
    all_goals simp_all
    all_goals exact ⟨_, h.symm⟩
  · simp only [resolve, paramsOf, postReg, hh, if_neg, Bool.false_and,
      eq_false_of_ne_true hh] at h ⊢
    revert h
    repeat' split
    all_goals intro h
    all_goals simp_all
    all_goals exact ⟨_, h.symm⟩

theorem resolveParamsAux_extends (step : Services → Ident → ROut)
    (hstep : ∀ s d, Extends s (step s d).services) :
    ∀ (ds : List Ident) (s : Services),
      Extends s (resolveParamsAux step s ds).services := by
  intro ds
  induction ds with
  | nil => intro s; exact Extends.rfl s
  | cons d rest ih =>
    intro s
    simp only [resolveParamsAux]
    cases hr : (step s d).result with
    | error e => simpa [hr] using hstep s d
    | ok v =>
      simp only [hr]
      cases hp : (resolveParamsAux step (step s d).services rest).result with
      | error e =>
        simp only [hp]
        exact (hstep s d).trans (by simpa [hp] using ih (step s d).services)
      | ok vs =>
        simp only [hp]
        exact (hstep s d).trans (by simpa [hp] using ih (step s d).services)

theorem resolve_extends (env : Env) :
    ∀ (fuel : Nat) (s : Services) (id : Ident) (u f : Bool),
      Extends s (resolve env fuel s id u f).services := by
  intro fuel
  induction fuel with
  | zero => intro s id u f; exact Extends.rfl s
  | succ n ih =>
    intro s id u f
    have hstep : ∀ (s' : Services) (d : Ident),
        Extends s' ((fun s'' d' => resolve env n s'' d' u false) s' d).services :=
      fun s' d => ih s' d u false
    have hext1 : Extends s (postReg s id) := by
      by_cases h : mapHas s id = true
      · simp only [postReg, h, if_pos]; exact Extends.rfl s
      · simp only [postReg, eq_false_of_ne_true h, if_neg, Bool.false_eq_true,
          not_false_eq_true]
        exact Extends.set_auto (eq_false_of_ne_true h)
    rcases resolve_services_cases env n s id u f with hc | hc | hc
    · rw [hc]; exact Extends.rfl s
    · rw [hc]; exact hext1
    · rw [hc]
      exact hext1.trans (resolveParamsAux_extends _ hstep _ _)

theorem resolveParamsAux_no_redir (step : Services → Ident → ROut)
    (hstep : ∀ s d e, (step s d).result = .error e → isRedirErr e = false) :
    ∀ (ds : List Ident) (s : Services) (e : DIError),
      (resolveParamsAux step s ds).result = .error e → isRedirErr e = false := by
  intro ds
  induction ds with
  | nil => intro s e h; cases h
  | cons d rest ih =>
    intro s e
    simp only [resolveParamsAux]
    cases hr : (step s d).result with
    | error e2 =>
      simp only [hr]
      intro h
      injection h with h2
      rw [← h2]
      exact hstep s d e2 hr
    | ok v =>
      simp only [hr]
      cases hp : (resolveParamsAux step (step s d).services rest).result with
      | error e2 =>
        simp only [hp]
        intro h
        injection h with h2
        rw [← h2]
        exact ih (step s d).services e2 hp
      | ok vs =>
        simp only [hp]
        intro h
        cases h

theorem resolve_no_redir (env : Env) :
    ∀ (fuel : Nat) (s : Services) (id : Ident) (u f : Bool) (e : DIError),
      (resolve env fuel s id u f).result = .error e → isRedirErr e = false := by
  intro fuel
  induction fuel with
  | zero =>
    intro s id u f e h
    simp only [resolve, Except.error.injEq] at h
    rw [← h]
    rfl
  | succ n ih =>
    intro s id u f e h
    have hstep : ∀ (s' : Services) (d : Ident) (e2 : DIError),
        ((fun s'' d' => resolve env n s'' d' u false) s' d).result = .error e2 →
          isRedirErr e2 = false :=
      fun s' d e2 hh => ih s' d u false e2 hh
    rcases resolve_error_source env n s id u f e h with hc | ⟨msg, hmsg⟩
    · exact resolveParamsAux_no_redir _ hstep _ _ _ hc
    · rw [hmsg]; rfl

end ResolveLemmas

section MoreLemmas

theorem construct_ok_shape {env : Env} {service : Value} {params : List Value}
    {v : Value} (h : construct env service params = .ok v) :
    ∃ c, v = .vInstance c params ∨ v = .vProxy c params := by
  cases service
  case vClass c =>
    refine ⟨c, ?_⟩
    simp only [construct] at h
    split at h
    · split at h
      · cases h
      · split at h
        · injection h with h2; exact Or.inl h2.symm
        · injection h with h2; exact Or.inr h2.symm
    · cases h
  all_goals simp [construct] at h

theorem resolve_auto_register (env : Env) (n : Nat) {s : Services}
    {id : Ident} (u : Bool) (h : mapHas s id = false) :
    mapGet (resolve env (n + 1) s id u false).services id
      = some (identValue id) := by
  have hget : mapGet (mapSet s id (identValue id)) id = some (identValue id) :=
    mapGet_set_self _ h
  have hhas : mapHas (mapSet s id (identValue id)) id = true :=
    mapHas_set_self _ h
  have hpar : ∀ ds, mapGet (resolveParamsAux
      (fun s' d => resolve env n s' d u false)
      (mapSet s id (identValue id)) ds).services id = some (identValue id) := by
    intro ds
    have he := resolveParamsAux_extends _
      (fun s' d => resolve_extends env n s' d u false) ds
      (mapSet s id (identValue id))
    rw [he.1 id hhas]
    exact hget
  simp only [resolve, h, Bool.false_and, Bool.not_false, Bool.true_and,
    Bool.false_eq_true, if_false, if_neg, not_false_eq_true]
  repeat' split
  all_goals first | exact hget | exact hpar _

theorem resolve_root_not_null (env : Env) (n : Nat) {s : Services}
    {id : Ident} (u : Bool) (h : mapGet s id = some (identValue id)) :
    (resolve env (n + 1) s id u true).result ≠ .ok .vNull := by
  have hhas : mapHas s id = true := by rw [mapHas_eq_isSome, h]; rfl
  have hgetD : mapGetD s id = identValue id := by rw [mapGetD, h]; rfl
  cases id with
  | symbolId m =>
    simp [resolve, hhas, hgetD, isSymbolId, identValue]
  | classId c =>
    simp only [resolve, hhas, hgetD, isSymbolId, identValue, Bool.and_false,
      Bool.true_and, Bool.not_true, Bool.false_and, Bool.false_eq_true,
      if_false, if_neg, not_false_eq_true, if_pos, isFalsy]
    repeat' split
    all_goals try simp_all
    rename_i v heq
    rcases construct_ok_shape heq with ⟨c2, hv | hv⟩ <;> subst hv <;> simp

end MoreLemmas

section RefLookupLemmas

theorem refLookup_foldl (nm : String) :
    ∀ (ys : List RefMeta) (acc : Option RefMeta),
      ys.foldl (fun a r => if r.methodName == nm then some r else a) acc
        = (refLookup ys nm).elim acc some := by
  intro ys
  induction ys with
  | nil => intro acc; rfl
  | cons r t ih =>
    intro acc
    simp only [refLookup, List.foldl_cons]
    rw [ih (if (r.methodName == nm) = true then some r else acc),
      ih (if (r.methodName == nm) = true then some r else none)]
    cases hl : refLookup t nm with
    | some m => rfl
    | none =>
      by_cases hm : (r.methodName == nm) = true
      · simp [hm]
      · simp [hm]

theorem refLookup_cons (r : RefMeta) (t : List RefMeta) (nm : String) :
    refLookup (r :: t) nm
      = (refLookup t nm).elim
          (if r.methodName == nm then some r else none) some := by
  simp only [refLookup, List.foldl_cons]
  exact refLookup_foldl nm t _

theorem refLookup_append (xs ys : List RefMeta) (nm : String) :
    refLookup (xs ++ ys) nm
      = (refLookup ys nm).elim (refLookup xs nm) some := by
  simp only [refLookup, List.foldl_append]
  exact refLookup_foldl nm ys _

theorem refLookup_no_match {l : List RefMeta} {nm : String}
    (h : ∀ m ∈ l, (m.methodName == nm) = false) : refLookup l nm = none := by
  induction l with
  | nil => rfl
  | cons r t ih =>
    rw [refLookup_cons, ih (fun m hm => h m (List.mem_cons_of_mem r hm)),
      h r (List.mem_cons_self r t)]
    rfl

end RefLookupLemmas

/-- C1 counterexample: with class 0 registered via `register` (stored
descriptor is the class itself), the nested overlay resolution returns the
stored descriptor — the class value — and not a constructed instance, so
the claimed fall-through to construction does not happen. -/
theorem c1_counterexample_nested_overlay_returns_class :
    (resolve WEnv 2 [(.classId 0, .vClass 0)] (.classId 0) true false).result
        = .ok (.vClass 0)
      ∧ (resolve WEnv 2 [(.classId 0, .vClass 0)] (.classId 0) true false).result
        ≠ .ok (.vInstance 0 []) := by
  refine ⟨rfl, ?_⟩
  have h0 : (resolve WEnv 2 [(.classId 0, .vClass 0)] (.classId 0)
      true false).result = .ok (.vClass 0) := rfl
  rw [h0]
  simp

/-- C1 (amended): the nested overlay branch of `resolve` does not check
whether the stored descriptor is an overlay value: for every identifier
whose stored descriptor is the constructible identifier itself, the nested
resolution with `useOverlay` returns that descriptor unchanged (with no
registry mutation and no construction), not a constructed instance. -/
theorem c1_amended_nested_overlay_returns_descriptor
    (env : Env) (fuel : Nat) (s : Services) (c : Nat)
    (h : mapGet s (.classId c) = some (.vClass c)) :
    resolve env (fuel + 1) s (.classId c) true false
      = ⟨.ok (.vClass c), s, []⟩ := by
  have hhas : mapHas s (.classId c) = true := by
    rw [mapHas_eq_isSome, h]; rfl
  have hgetD : mapGetD s (.classId c) = .vClass c := by
    rw [mapGetD, h]; rfl
  simp [resolve, hhas, hgetD, isSymbolId, isFalsy]

/-- C1 witness: the amended theorem evaluated at the registered class 0. -/
theorem c1_amended_witness :
    resolve WEnv 2 [(.classId 0, .vClass 0)] (.classId 0) true false
      = ⟨.ok (.vClass 0), [(.classId 0, .vClass 0)], []⟩ :=
  c1_amended_nested_overlay_returns_descriptor WEnv 1 _ 0 rfl

/-- C2 counterexample: `registerMock` on a token (symbol) identifier throws
the configuration error instead of storing the value, while `register`
stores it — the validation is not identical. -/
theorem c2_counterexample_registerMock_symbol_throws :
    registerMock WEnv [] (.symbolId 0) .vNull
        = .error (.configuration "Class has no static property DEPS")
      ∧ register WEnv [] (.symbolId 0) .vNull = .ok [(.symbolId 0, .vNull)] :=
  ⟨rfl, rfl⟩

/-- C2 (amended): `registerMock` lacks `register`'s token special case: for
every token (symbol) identifier and every value it throws
ConfigurationError, whereas `register` stores `(id -> value)`
unconditionally; the `DEPS`-array validation of the two functions agrees
only on constructible identifiers. -/
theorem c2_amended_registerMock_rejects_tokens
    (env : Env) (s : Services) (n : Nat) (v : Value) :
    registerMock env s (.symbolId n) v
        = .error (.configuration "Class has no static property DEPS")
      ∧ register env s (.symbolId n) v = .ok (mapSet s (.symbolId n) v) := by
  refine ⟨?_, rfl⟩
  simp [registerMock, hasDepsArray]

/-- C3 counterexample: a never-registered constructible identifier with an
empty dependency list, resolved in nested position with `useOverlay = true`,
is auto-registered and then returned as itself by the overlay branch — not
constructed — so the claim's conclusion fails for that overlay flag. -/
theorem c3_counterexample_overlay_nested_returns_identifier :
    (resolve WEnv 2 [] (.classId 0) true false).result = .ok (.vClass 0)
      ∧ (resolve WEnv 2 [] (.classId 0) true false).result
        ≠ .ok (.vInstance 0 []) := by
  refine ⟨rfl, ?_⟩
  have h0 : (resolve WEnv 2 [] (.classId 0) true false).result
      = .ok (.vClass 0) := rfl
  rw [h0]
  simp

/-- C3 (amended): for every absent identifier, root resolution returns
`null` and nested resolution auto-registers the identifier as its own
descriptor; when `useOverlay = false`, a never-registered constructible
identifier whose dependency list (possibly empty) resolves successfully
yields a newly constructed instance with the recursively resolved
dependencies as positional constructor arguments (the redirection wrapper
applied when the class has bindings) — with `useOverlay = true` the overlay
branch instead returns the auto-registered descriptor itself, per the
counterexample. -/
theorem c3_amended_root_null_nested_auto_register
    (env : Env) (fuel : Nat) (s sp : Services) (id : Ident) (u : Bool)
    (c : Nat) (cd : ClassDef) (ps : List Value) (logs : List LogEntry)
    (habs : mapHas s id = false)
    (hc : env.classes c = some cd)
    (hthrow : cd.ctorThrows = false)
    (habs2 : mapHas s (.classId c) = false)
    (hparams : resolveParamsAux
        (fun s2 d => resolve env fuel s2 d false false)
        (mapSet s (.classId c) (.vClass c)) (cd.deps.getD [])
      = ⟨.ok ps, sp, logs⟩) :
    (resolve env (fuel + 1) s id u true).result = .ok .vNull
      ∧ mapGet (resolve env (fuel + 1) s id u false).services id
        = some (identValue id)
      ∧ resolve env (fuel + 1) s (.classId c) false false
        = ⟨.ok (if cd.refs.isEmpty then .vInstance c ps else .vProxy c ps),
           sp, logs⟩ := by
  refine ⟨by simp [resolve, habs], resolve_auto_register env fuel u habs, ?_⟩
  have hget : mapGetD (mapSet s (.classId c) (.vClass c))
      (.classId c) = .vClass c := by
    rw [mapGetD, mapGet_set_self _ habs2]; rfl
  cases hre : cd.refs.isEmpty with
  | true =>
    simp [resolve, habs2, hget, isSymbolId, isFalsy, getDeps, hc, hparams,
      construct, hthrow, hre, identValue]
  | false =>
    simp [resolve, habs2, hget, isSymbolId, isFalsy, getDeps, hc, hparams,
      construct, hthrow, hre, identValue]

/-- C3 witness: the amended theorem at an absent symbol (root null and
auto-registration) and the never-registered class 1, whose nonempty
dependency list `[class 0]` resolves against the registered class 0. -/
theorem c3_amended_witness :
    (resolve WEnv 2 [(.classId 0, .vClass 0)] (.symbolId 3) true
        true).result = .ok .vNull
      ∧ mapGet (resolve WEnv 2 [(.classId 0, .vClass 0)] (.symbolId 3) true
          false).services (.symbolId 3) = some (identValue (.symbolId 3))
      ∧ resolve WEnv 2 [(.classId 0, .vClass 0)] (.classId 1) false false
        = ⟨.ok (.vInstance 1 [.vInstance 0 []]),
           [(.classId 0, .vClass 0), (.classId 1, .vClass 1)], []⟩ :=
  c3_amended_root_null_nested_auto_register WEnv 1 [(.classId 0, .vClass 0)]
    [(.classId 0, .vClass 0), (.classId 1, .vClass 1)] (.symbolId 3) true 1
    cdNeedsPlain [.vInstance 0 []] [] rfl rfl rfl rfl rfl

/-- C6: a registered class with dependency list `[a, b, c2]` is constructed
with the three dependencies resolved left to right with the same overlay
flag and `isRoot = false`, passed positionally in exactly that order; the
state and logs thread through in the same order. -/
theorem c6_deps_resolved_in_list_order
    (env : Env) (fuel : Nat) (s s1 s2 s3 : Services) (k : Nat)
    (cd : ClassDef) (a b c2 : Ident) (u isFirst : Bool)
    (ra rb rc : Value) (l1 l2 l3 : List LogEntry)
    (hreg : mapGet s (.classId k) = some (.vClass k))
    (hc : env.classes k = some cd)
    (hdeps : cd.deps = some [a, b, c2])
    (hthrow : cd.ctorThrows = false)
    (hrefs : cd.refs = [])
    (hmock : (!isFirst && u) = false)
    (h1 : resolve env fuel s a u false = ⟨.ok ra, s1, l1⟩)
    (h2 : resolve env fuel s1 b u false = ⟨.ok rb, s2, l2⟩)
    (h3 : resolve env fuel s2 c2 u false = ⟨.ok rc, s3, l3⟩) :
    resolve env (fuel + 1) s (.classId k) u isFirst
      = ⟨.ok (.vInstance k [ra, rb, rc]), s3, l1 ++ l2 ++ l3⟩ := by
  have hhas : mapHas s (.classId k) = true := by
    rw [mapHas_eq_isSome, hreg]; rfl
  have hgetD : mapGetD s (.classId k) = .vClass k := by
    rw [mapGetD, hreg]; rfl
  simp [resolve, hhas, hgetD, isSymbolId, isFalsy, getDeps, hc, hdeps, hmock,
    resolveParamsAux, h1, h2, h3, construct, hthrow, hrefs,
    List.append_assoc]

/-- C6 witness: class 8 with dependency list `[class 0, class 5, token 7]`,
all three registered, is constructed with the three resolved values in list
order. -/
theorem c6_witness :
    resolve WEnv 2
        [(.classId 8, .vClass 8), (.classId 0, .vClass 0),
         (.classId 5, .vClass 5), (.symbolId 7, .vStr "t")]
        (.classId 8) false true
      = ⟨.ok (.vInstance 8 [.vInstance 0 [], .vInstance 5 [], .vStr "t"]),
         [(.classId 8, .vClass 8), (.classId 0, .vClass 0),
          (.classId 5, .vClass 5), (.symbolId 7, .vStr "t")], []⟩ :=
  c6_deps_resolved_in_list_order WEnv 1 _ _ _ _ 8 cdThreeDeps
    (.classId 0) (.classId 5) (.symbolId 7) false true
    (.vInstance 0 []) (.vInstance 5 []) (.vStr "t") [] [] []
    rfl rfl rfl rfl rfl rfl rfl rfl rfl

/-- C8: when the constructor of a resolved class descriptor throws, the
same `resolve` call appends a diagnostic log entry carrying the failing
descriptor, the resolved parameters and the underlying cause, and returns
(synchronously throws) the ResolutionError; no instance is produced. -/
theorem c8_construction_failure_logged_and_thrown
    (env : Env) (fuel : Nat) (s sp : Services) (k : Nat) (cd : ClassDef)
    (u isFirst : Bool) (ps : List Value) (logs : List LogEntry)
    (hreg : mapGet s (.classId k) = some (.vClass k))
    (hc : env.classes k = some cd)
    (hthrow : cd.ctorThrows = true)
    (hmock : (!isFirst && u) = false)
    (hparams : resolveParamsAux (fun s2 d => resolve env fuel s2 d u false) s
        (cd.deps.getD []) = ⟨.ok ps, sp, logs⟩) :
    resolve env (fuel + 1) s (.classId k) u isFirst
      = ⟨.error (.resolution "Unable to resolve service: undefined"), sp,
         logs ++ [.resolveError "Missed: undefined" none (.vClass k) ps
            cd.ctorErr]⟩ := by
  have hhas : mapHas s (.classId k) = true := by
    rw [mapHas_eq_isSome, hreg]; rfl
  have hgetD : mapGetD s (.classId k) = .vClass k := by
    rw [mapGetD, hreg]; rfl
  simp [resolve, hhas, hgetD, isSymbolId, isFalsy, getDeps, hc, hmock,
    hparams, construct, hthrow, stringifyOr, jsonStringify, errText]

/-- C8 witness: the throwing class 2, registered, with an empty dependency
list. -/
theorem c8_witness :
    resolve WEnv 1 [(.classId 2, .vClass 2)] (.classId 2) false true
      = ⟨.error (.resolution "Unable to resolve service: undefined"),
         [(.classId 2, .vClass 2)],
         [.resolveError "Missed: undefined" none (.vClass 2) []
            "ctor failed"]⟩ :=
  c8_construction_failure_logged_and_thrown WEnv 0 _ _ 2 cdThrowing false
    true [] [] rfl rfl rfl rfl rfl

/-- C9: the only registry mutation `resolve` performs is auto-registration:
entries present before the call keep their stored values; every entry the
call adds maps an identifier to itself; a nested resolution of an absent
identifier does add that self-descriptor entry, and it persists, so a
subsequent root-level resolve of the same identifier no longer returns
`null`. -/
theorem c9_resolve_mutates_registry_only_by_auto_registration
    (env : Env) (fuel : Nat) (s : Services) (id : Ident) (u f : Bool) :
    (∀ k, mapHas s k = true →
      mapGet (resolve env fuel s id u f).services k = mapGet s k)
    ∧ (∀ k, mapHas s k = false →
        mapHas (resolve env fuel s id u f).services k = true →
        mapGet (resolve env fuel s id u f).services k = some (identValue k))
    ∧ (mapHas s id = false → f = false → 1 ≤ fuel →
        mapGet (resolve env fuel s id u f).services id = some (identValue id))
    ∧ (mapHas s id = false → f = false → 1 ≤ fuel →
        ∀ (fuel2 : Nat) (u2 : Bool),
          (resolve env (fuel2 + 1) (resolve env fuel s id u f).services id
              u2 true).result ≠ .ok .vNull) := by
  obtain ⟨hx, hy⟩ := resolve_extends env fuel s id u f
  refine ⟨hx, hy, ?_, ?_⟩
  · intro h hf hfuel
    obtain ⟨n, rfl⟩ : ∃ n, fuel = n + 1 := ⟨fuel - 1, by omega⟩
    subst hf
    exact resolve_auto_register env n u h
  · intro h hf hfuel fuel2 u2
    obtain ⟨n, rfl⟩ : ∃ n, fuel = n + 1 := ⟨fuel - 1, by omega⟩
    subst hf
    exact resolve_root_not_null env fuel2 u2 (resolve_auto_register env n u h)

/-- C9 witness: nested resolution of the unregistered class 1 (whose
dependency, class 0, is registered) leaves the existing entry unchanged,
adds the self-descriptor for class 1, and a root re-resolve is non-null. -/
theorem c9_witness :
    mapGet (resolve WEnv 2 [(.classId 0, .vClass 0)] (.classId 1)
        false false).services (.classId 0)
        = mapGet [(.classId 0, .vClass 0)] (.classId 0)
      ∧ mapGet (resolve WEnv 2 [(.classId 0, .vClass 0)] (.classId 1)
          false false).services (.classId 1) = some (identValue (.classId 1))
      ∧ (resolve WEnv 1 (resolve WEnv 2 [(.classId 0, .vClass 0)]
          (.classId 1) false false).services (.classId 1) true true).result
        ≠ .ok .vNull := by
  obtain ⟨ha, _, hc, hd⟩ :=
    c9_resolve_mutates_registry_only_by_auto_registration WEnv 2
      [(.classId 0, .vClass 0)] (.classId 1) false false
  exact ⟨ha (.classId 0) rfl, hc rfl rfl (by omega),
    hd rfl rfl (by omega) 0 true⟩

/-- C10: a registered class whose dependency list holds an unregistered
symbol token does not receive `null` for it: the token is auto-registered
as its own descriptor, constructing the symbol throws, and the whole root
resolve call fails with the resolution error whose message is
`Unable to resolve service: undefined` because the symbol descriptor
JSON-stringifies to `undefined`. -/
theorem c10_missing_symbol_dep_resolution_error
    (env : Env) (fuel : Nat) (s : Services) (c t : Nat) (cd : ClassDef)
    (hc : env.classes c = some cd)
    (hdeps : cd.deps = some [.symbolId t])
    (hreg : mapGet s (.classId c) = some (.vClass c))
    (habs : mapHas s (.symbolId t) = false) :
    resolve env (fuel + 2) s (.classId c) false true
      = ⟨.error (.resolution "Unable to resolve service: undefined"),
         mapSet s (.symbolId t) (.vSymbol t),
         [.resolveError "Missed: undefined" none (.vSymbol t) []
            "TypeError: service is not a constructor"]⟩ := by
  have hhas : mapHas s (.classId c) = true := by
    rw [mapHas_eq_isSome, hreg]; rfl
  have hgetD : mapGetD s (.classId c) = .vClass c := by
    rw [mapGetD, hreg]; rfl
  have hsget : mapGetD (mapSet s (.symbolId t) (.vSymbol t)) (.symbolId t)
      = .vSymbol t := by
    rw [mapGetD, mapGet_set_self _ habs]; rfl
  have hinner : resolve env (fuel + 1) s (.symbolId t) false false
      = ⟨.error (.resolution "Unable to resolve service: undefined"),
         mapSet s (.symbolId t) (.vSymbol t),
         [.resolveError "Missed: undefined" none (.vSymbol t) []
            "TypeError: service is not a constructor"]⟩ := by
    simp [resolve, habs, hsget, isSymbolId, isFalsy, getDeps,
      resolveParamsAux, construct, stringifyOr, jsonStringify, errText,
      identValue]
  rw [show fuel + 2 = fuel + 1 + 1 from rfl, resolve]
  simp [hhas, hgetD, isSymbolId, isFalsy, getDeps, hc, hdeps,
    resolveParamsAux, hinner]

/-- C10 witness: class 3 (dependency list `[token 7]`) registered, token 7
absent. -/
theorem c10_witness :
    resolve WEnv 2 [(.classId 3, .vClass 3)] (.classId 3) false true
      = ⟨.error (.resolution "Unable to resolve service: undefined"),
         [(.classId 3, .vClass 3), (.symbolId 7, .vSymbol 7)],
         [.resolveError "Missed: undefined" none (.vSymbol 7) []
            "TypeError: service is not a constructor"]⟩ :=
  c10_missing_symbol_dep_resolution_error WEnv 0 _ 3 7 cdSymNeeder
    rfl rfl rfl rfl

/-- C4: with a binding `(owner, name -> thunk tid, tname)` selected for the
bound name, calling the bound method on the wrapped instance returns the
same result as calling `tname` on the target obtained by resolving `tid`
with `(useOverlay := false, isRoot := false)`; and for any member name with
no binding, the wrapped instance behaves exactly as the bare instance. -/
theorem c4_bound_method_redirects_and_others_transparent
    (env : Env) (fuel : Nat) (s sp : Services) (o : Nat)
    (cargs : List Value) (name nm2 tname : String) (args : List Value)
    (tid : Ident) (tv : Value) (logs : List LogEntry)
    (hb : refLookup (refsOf env o) name = some ⟨name, some tid, some tname⟩)
    (htn : (tname == "") = false)
    (hres : resolve env fuel s tid false false = ⟨.ok tv, sp, logs⟩)
    (hcall : hasCallableMember env tv tname = true)
    (hnb : refLookup (refsOf env o) nm2 = none) :
    (callMember env (fuel + 1) s (.vProxy o cargs) name args).result
        = (callMember env fuel sp tv tname args).result
      ∧ callMember env (fuel + 1) s (.vProxy o cargs) nm2 args
        = callMember env (fuel + 1) s (.vInstance o cargs) nm2 args := by
  have hnn : isNullish tv = false := by
    cases tv <;> simp_all [hasCallableMember, isNullish]
  constructor
  · simp [callMember, hb, hres, jsOr, htn, hnn, hcall]
  · simp [callMember, hnb]

/-- C4 witness: the binding `foo -> (class 5).bar` of class 4, with class 5
registered; `own` is unbound and dispatches to the instance's own method. -/
theorem c4_witness :
    ((callMember WEnv 2 [(.classId 5, .vClass 5)] (.vProxy 4 []) "foo"
        [.vStr "x"]).result
        = (callMember WEnv 1 [(.classId 5, .vClass 5)] (.vInstance 5 [])
            "bar" [.vStr "x"]).result)
      ∧ callMember WEnv 2 [(.classId 5, .vClass 5)] (.vProxy 4 []) "own"
          [.vStr "x"]
        = callMember WEnv 2 [(.classId 5, .vClass 5)] (.vInstance 4 []) "own"
          [.vStr "x"] :=
  c4_bound_method_redirects_and_others_transparent WEnv 1 _ _ 4 [] "foo"
    "own" "bar" [.vStr "x"] (.classId 5) (.vInstance 5 []) [] rfl rfl rfl
    rfl rfl

/-- C7: bindings are attached without any rejection (the store is a plain
list push), and the flattened name-to-binding map makes the later-attached
binding for a duplicated source method name win: the lookup returns `m2`,
and every call of that name on a wrapped instance runs the redirection of
`m2` alone. -/
theorem c7_last_attached_binding_wins
    (env : Env) (fuel : Nat) (s : Services) (o : Nat) (cargs : List Value)
    (nm : String) (args : List Value) (l1 l2 l3 : List RefMeta)
    (m1 m2 : RefMeta)
    (hrefs : refsOf env o = l1 ++ m1 :: (l2 ++ m2 :: l3))
    (h1 : (m1.methodName == nm) = true)
    (h2 : (m2.methodName == nm) = true)
    (h3 : ∀ m ∈ l3, (m.methodName == nm) = false) :
    refLookup (refsOf env o) nm = some m2
      ∧ callMember env (fuel + 1) s (.vProxy o cargs) nm args
        = redirectSpec env fuel s m2 nm args := by
  have hl : refLookup (refsOf env o) nm = some m2 := by
    rw [hrefs, refLookup_append, refLookup_cons, refLookup_append,
      refLookup_cons, refLookup_no_match h3, h2]
    rfl
  refine ⟨hl, ?_⟩
  simp only [callMember, redirectSpec, hl]

/-- C7 witness: class 9 carries two bindings for `foo`; the later one (the
failing thunk) is selected and dispatched. -/
theorem c7_witness :
    refLookup (refsOf WEnv 9) "foo" = some ⟨"foo", none, none⟩
      ∧ callMember WEnv 1 [] (.vProxy 9 []) "foo" []
        = redirectSpec WEnv 0 [] ⟨"foo", none, none⟩ "foo" [] :=
  c7_last_attached_binding_wins WEnv 0 [] 9 [] "foo" [] [] [] []
    ⟨"foo", some (.classId 5), some "bar"⟩ ⟨"foo", none, none⟩ rfl rfl rfl
    (by simp)

/-- C5 counterexample: a redirected call on class 6 fails with a
RedirectionError although its own binding's thunk yields a usable type
(class 7 resolves to a proxy) and the resolved target has a callable member
of the effective name — the error is the nested binding's failure,
propagated, so the claimed `exactly when` fails. -/
theorem c5_counterexample_nested_redirection_error_propagates :
    (callMember WEnv 4 [(.classId 7, .vClass 7)] (.vProxy 6 []) "foo"
        []).result
        = .error (.redirection "No class returned from @Ref for method foo")
      ∧ refLookup (refsOf WEnv 6) "foo"
        = some ⟨"foo", some (.classId 7), none⟩
      ∧ (resolve WEnv 3 [(.classId 7, .vClass 7)] (.classId 7) false
          false).result = .ok (.vProxy 7 [])
      ∧ hasCallableMember WEnv (.vProxy 7 []) "foo" = true :=
  ⟨rfl, rfl, rfl, rfl⟩

/-- C5 (amended): a redirected call fails with RedirectionError exactly
when its binding's thunk yields no usable type, or the resolved target is a
non-nullish value lacking a callable member of the effective method name,
or the invoked target member is itself a redirected method whose call fails
with a RedirectionError (the nested error propagates unchanged).  The thunk
outcome is never consulted at binding registration or at wrap time: an
owner class whose bindings may all carry failing thunks still resolves to a
proxy without error, and a failing thunk surfaces only at the call, where
the directly raised error is logged and rethrown. -/
theorem c5_amended_redirection_error_exactly_when
    (env : Env) (fuel : Nat) (s : Services) (o oc : Nat)
    (cargs : List Value) (name : String) (args : List Value)
    (meta : RefMeta) (cd : ClassDef)
    (hb : refLookup (refsOf env o) name = some meta)
    (hwc : env.classes oc = some cd) (hwdeps : cd.deps = some [])
    (hwthrow : cd.ctorThrows = false) (hwrefs : cd.refs ≠ [])
    (hwreg : mapGet s (.classId oc) = some (.vClass oc)) :
    ((∃ msg, (callMember env (fuel + 1) s (.vProxy o cargs) name args).result
          = .error (.redirection msg))
        ↔ (meta.classRef = none
            ∨ ∃ tid tv rs rl, meta.classRef = some tid
                ∧ resolve env fuel s tid false false = ⟨.ok tv, rs, rl⟩
                ∧ isNullish tv = false
                ∧ (hasCallableMember env tv (jsOr meta.targetMethodName name)
                      = false
                   ∨ ∃ msg2, (callMember env fuel rs tv
                        (jsOr meta.targetMethodName name) args).result
                      = .error (.redirection msg2))))
      ∧ (resolve env (fuel + 1) s (.classId oc) false true).result
          = .ok (.vProxy oc [])
      ∧ (meta.classRef = none →
          callMember env (fuel + 1) s (.vProxy o cargs) name args
            = ⟨.error (.redirection
                  ("No class returned from @Ref for method " ++ name)), s,
               [.refError ("Failed to resolve @Ref method: " ++ name)
                  ("No class returned from @Ref for method " ++ name)]⟩) := by
  have hwempty : cd.refs.isEmpty = false := by
    cases hx : cd.refs with
    | nil => exact absurd hx hwrefs
    | cons a t => rfl
  have hhas : mapHas s (.classId oc) = true := by
    rw [mapHas_eq_isSome, hwreg]; rfl
  have hgetD : mapGetD s (.classId oc) = .vClass oc := by
    rw [mapGetD, hwreg]; rfl
  refine ⟨?_, ?_, ?_⟩
  · cases hcr : meta.classRef with
    | none =>
      simp only [callMember, hb, hcr]
      constructor
      · intro _
        exact Or.inl trivial
      · intro _
        exact ⟨_, rfl⟩
    | some tid =>
      rcases hrr : resolve env fuel s tid false false with ⟨rres, rsv, rlg⟩
      cases rres with
      | error e =>
        simp only [callMember, hb, hcr, hrr]
        constructor
        · rintro ⟨msg, hmsg⟩
          exfalso
          have hne : isRedirErr e = false :=
            resolve_no_redir env fuel s tid false false e (by rw [hrr])
          injection hmsg with h2
          rw [h2] at hne
          simp [isRedirErr] at hne
        · rintro (hno | ⟨tid2, tv, rs, rl, hcr2, hres2, hnn, hrest⟩)
          · cases hno
          · injection hcr2 with h2
            subst h2
            rw [hrr] at hres2
            injection hres2 with ha hb2 hc2
            cases ha
      | ok tv0 =>
        cases hn : isNullish tv0 with
        | true =>
          simp only [callMember, hb, hcr, hrr, hn]
          constructor
          · rintro ⟨msg, hmsg⟩
            cases hmsg
          · rintro (hno | ⟨tid2, tv, rs, rl, hcr2, hres2, hnn, hrest⟩)
            · cases hno
            · injection hcr2 with h2
              subst h2
              rw [hrr] at hres2
              injection hres2 with ha hb2 hc2
              injection ha with ha2
              subst ha2
              rw [hn] at hnn
              cases hnn
        | false =>
          cases hm : hasCallableMember env tv0
              (jsOr meta.targetMethodName name) with
          | false =>
            simp only [callMember, hb, hcr, hrr, hn, hm, Bool.not_false,
              Bool.false_eq_true, if_false, if_neg, not_false_eq_true,
              if_pos, Bool.not_true]
            constructor
            · intro _
              exact Or.inr ⟨tid, tv0, rsv, rlg, rfl, hrr, hn, Or.inl hm⟩
            · intro _
              exact ⟨_, rfl⟩
          | true =>
            simp only [callMember, hb, hcr, hrr, hn, hm, Bool.not_true,
              Bool.false_eq_true, if_false, if_neg, not_false_eq_true]
            constructor
            · rintro ⟨msg, hmsg⟩
              exact Or.inr ⟨tid, tv0, rsv, rlg, rfl, hrr, hn,
                Or.inr ⟨msg, hmsg⟩⟩
            · rintro (hno | ⟨tid2, tv, rs, rl, hcr2, hres2, hnn, hrest⟩)
              · cases hno
              · injection hcr2 with h2
                subst h2
                rw [hrr] at hres2
                injection hres2 with ha hb2 hc2
                injection ha with ha2
                subst ha2
                subst hb2
                subst hc2
                rcases hrest with hcall | ⟨msg2, hmsg2⟩
                · rw [hm] at hcall
                  cases hcall
                · exact ⟨msg2, hmsg2⟩
  · simp [resolve, hhas, hgetD, isSymbolId, isFalsy, getDeps, hwc, hwdeps,
      resolveParamsAux, construct, hwthrow, hwempty]
  · intro hcr
    simp [callMember, hb, hcr, refFailLog, errMessage]

/-- C5 witness: the amended theorem at class 7 (owner whose binding has a
failing thunk) and class 6 (registered owner with a non-empty binding
list). -/
theorem c5_amended_witness :
    ((∃ msg, (callMember WEnv 2 [(.classId 6, .vClass 6)] (.vProxy 7 [])
          "foo" []).result = .error (.redirection msg))
        ↔ ((⟨"foo", none, none⟩ : RefMeta).classRef = none
            ∨ ∃ tid tv rs rl,
                (⟨"foo", none, none⟩ : RefMeta).classRef = some tid
                ∧ resolve WEnv 1 [(.classId 6, .vClass 6)] tid false false
                  = ⟨.ok tv, rs, rl⟩
                ∧ isNullish tv = false
                ∧ (hasCallableMember WEnv tv
                      (jsOr (⟨"foo", none, none⟩ : RefMeta).targetMethodName
                        "foo") = false
                   ∨ ∃ msg2, (callMember WEnv 1 rs tv
                        (jsOr (⟨"foo", none, none⟩ :
                            RefMeta).targetMethodName "foo") []).result
                      = .error (.redirection msg2))))
      ∧ (resolve WEnv 2 [(.classId 6, .vClass 6)] (.classId 6) false
          true).result = .ok (.vProxy 6 [])
      ∧ ((⟨"foo", none, none⟩ : RefMeta).classRef = none →
          callMember WEnv 2 [(.classId 6, .vClass 6)] (.vProxy 7 []) "foo" []
            = ⟨.error (.redirection
                  ("No class returned from @Ref for method " ++ "foo")),
               [(.classId 6, .vClass 6)],
               [.refError ("Failed to resolve @Ref method: " ++ "foo")
                  ("No class returned from @Ref for method " ++ "foo")]⟩) :=
  c5_amended_redirection_error_exactly_when WEnv 1
    [(.classId 6, .vClass 6)] 7 6 [] "foo" [] ⟨"foo", none, none⟩
    cdOuterNested rfl rfl rfl rfl (by simp [cdOuterNested]) rfl
